import Mathlib

/-!
Verification development for the `dtype_variant` sum-type code generator.

The repository is a compile-time generator: given a schema of variants
(unit / tuple / struct shaped), it emits marker types, accessor
operations (owned / by-reference / by-mutable-reference), a plain
per-variant dispatch construct, and grouped dispatch constructs over a
validated partition of the variant set.

We shallowly embed the generator's data model and the runtime semantics
of the generated artifacts.  Roots of the embedding:

* `src/dtype_variant/src/lib.rs` — the trait surface
  (`EnumVariantDowncast`, `EnumVariantDowncastRef`, `EnumVariantDowncastMut`)
  and the test suite fixing generated behaviour.
* `src/dtype_variant_derive/src/matcher_gen.rs` — dispatch-arm
  generation (`generate_match_arm_content`,
  `generate_match_arms_for_regular_matcher`); embedded directly.
* `src/dtype_variant_derive/src/grouped_matcher.rs` — parsing of the
  grouped-matcher attribute (`ParsedGroups::from_meta`); embedded
  directly over a small expression AST.
* `src/dtype_variant_derive/src/lib.rs` — `build_dtype_tokens`, the
  marker-type emitter; embedded directly.

The derive crate references a module `derive` (schema extraction,
accessor generation, grouping validation) whose file is not present in
the sources; those parts are modelled from the specification and are
marked `Modelled from the spec:` in their doc comments.
-/

namespace DtypeVariant

/-- A (simplified) Rust type expression, enough to speak about payload
types, read-only references and mutable references. -/
inductive RTy where
  | named (n : String)
  | ref (t : RTy)
  | mutRef (t : RTy)
  | unitTy
deriving DecidableEq, Repr

/-- Shape of one variant: no payload, one unnamed payload, or named
fields in declared order (spec §3 VariantShape). -/
inductive VariantShape where
  | unit
  | tuple (payloadType : RTy)
  | struct (fields : List (String × RTy))
deriving DecidableEq, Repr

/-- One variant of a sum type (spec §3 VariantDescriptor). -/
structure VariantDescriptor where
  name : String
  shape : VariantShape
  is_default : Bool
deriving DecidableEq, Repr

/-- Token scope for marker identity: private to one sum type, or shared
across sum types via a module path (spec §3 TokenScope). -/
inductive TokenScope where
  | loc (type_name : String)
  | shared (module_path : String)
deriving DecidableEq, Repr

/-- The parts of a SchemaModel the claims need (spec §3). -/
structure SchemaModel where
  type_name : String
  variants : List VariantDescriptor
  token_scope : TokenScope
deriving Repr

/-- Runtime payload of a sum-type value, parametric in the universe of
field values: unit payload, single tuple payload, or a record of named
fields in declared order. -/
inductive Payload (α : Type) where
  | unit
  | tuple (v : α)
  | struct (fields : List (String × α))
deriving DecidableEq, Repr

/-- A runtime sum-type value: the active variant's tag and its payload. -/
structure SumVal (α : Type) where
  tag : String
  payload : Payload α
deriving DecidableEq, Repr

/-- Modelled from the spec: the owned accessor generated by the
`derive` module (absent from the sources; spec §4.4).  Keyed by the
variant token, it consumes the value and returns the payload when the
runtime tag matches, else an absent result.  For struct shapes the
returned payload is the owned record (field list in declared order). -/
def downcast (tok : String) (v : SumVal α) : Option (Payload α) :=
  if v.tag = tok then some v.payload else none

/-- Modelled from the spec: the by-reference accessor (spec §4.4).  A
read-only borrow observes the payload without changing the value; in
this pure embedding it is the read itself. -/
def downcast_ref (tok : String) (v : SumVal α) : Option (Payload α) :=
  if v.tag = tok then some v.payload else none

/-- Modelled from the spec: the by-mutable-reference accessor
(spec §4.4), embedded as a state transformer.  The caller's writes
through the returned mutable references are a payload-update function
`w`; when the tag matches, `w` acts on the original storage and the
call reports a present result, otherwise the value is untouched and the
result is absent. -/
def downcast_mut_write (tok : String) (w : Payload α → Payload α) (v : SumVal α) :
    Option Unit × SumVal α :=
  if v.tag = tok then (some (), ⟨v.tag, w v.payload⟩) else (none, v)

/-- Writing one named field of a struct payload through its mutable
reference; non-struct payloads are untouched. -/
def setField (name : String) (x : α) : Payload α → Payload α
  | .struct fs => .struct (fs.map fun f => if f.1 = name then (f.1, x) else f)
  | p => p

/-- Reading one named field of a struct payload. -/
def lookupField (name : String) : Payload α → Option α
  | .struct fs => (fs.find? fun f => f.1 == name).map (·.2)
  | _ => none

/-- Modelled from the spec: the generated conversion constructing the
sum type from a variant's payload (spec §4.4: bare payload for tuple
shapes, the owned record for struct shapes). -/
def fromPayload (tok : String) (p : Payload α) : SumVal α :=
  ⟨tok, p⟩

/-- Modelled from the spec: whether a conversion is generated for a
shape (spec §4.4: none for unit shapes, and none at all when
`suppress_conversions` is set). -/
def conversionGenerated (suppress_conversions : Bool) : VariantShape → Bool
  | .unit => false
  | _ => !suppress_conversions

/-! ### Marker types

`build_dtype_tokens` (src/dtype_variant_derive/src/lib.rs, lines 43-60)
maps each listed variant name to one empty unit-struct declaration named
by appending `Variant`. -/

/-- Embeds `build_dtype_tokens`: the emitted marker-type declaration
names, one per listed variant ident, in order. -/
def build_dtype_tokens (variants : List String) : List String :=
  variants.map fun v => v ++ "Variant"

/-- Modelled from the spec: `MarkerAllocator.assign` (§4.3; the derive
module holding the scope wiring is absent from the sources).  Marker
identity is the pair of the token scope and the variant name. -/
def assign (scope : String) (variant_name : String) : String × String :=
  (scope, variant_name)

/-- Modelled from the spec: the scope key a SchemaModel's token-scope
configuration denotes — private to the type for local scopes, the
module path for shared scopes (spec §3, §9). -/
def markerScope : TokenScope → String
  | .loc t => "local:" ++ t
  | .shared p => "shared:" ++ p

/-- Marker identity a SchemaModel obtains for one of its variant
names. -/
def markerFor (m : SchemaModel) (variant_name : String) : String × String :=
  assign (markerScope m.token_scope) variant_name

/-- Modelled from the spec (§4.3): one generation run emits one
marker-type declaration per unique variant name actually allocated in a
scope, deduplicating across the SchemaModels that share the scope. -/
def emitMarkersForRun (allocated : List String) : List String :=
  build_dtype_tokens allocated.dedup

/-! ### Struct-variant record synthesis -/

/-- A synthesized record type declaration: its type name and its
fields in declared order. -/
structure RecordDecl where
  name : String
  fields : List (String × RTy)
deriving DecidableEq, Repr

/-- Modelled from the spec: the AccessorGenerator's struct-variant
record synthesis (spec §4.4, §8, §9; the derive module is absent from
the sources, the generated names `PersonFields` / `PersonRef` /
`PersonMut` are fixed by the tests in src/dtype_variant/src/lib.rs).
For a struct variant it synthesizes the owned record (fields by value),
the reference record (one read-only reference per field) and the
mutable-reference record (one mutable reference per field), fields kept
in declared order. -/
def synthesizeStructRecords (variantName : String) (fields : List (String × RTy)) :
    RecordDecl × RecordDecl × RecordDecl :=
  (⟨variantName ++ "Fields", fields⟩,
   ⟨variantName ++ "Ref", fields.map fun f => (f.1, RTy.ref f.2)⟩,
   ⟨variantName ++ "Mut", fields.map fun f => (f.1, RTy.mutRef f.2)⟩)

/-! ### Plain dispatch generation

Embedded from src/dtype_variant_derive/src/matcher_gen.rs. -/

/-- Per-variant input of the arm generator (the fields of
`ParsedVariantInfo` that `matcher_gen.rs` reads). -/
structure ParsedVariantInfo where
  variant_ident : String
  token_ident : String
  inner_type : Option RTy
  is_unit : Bool
deriving DecidableEq, Repr

/-- The parameters of `MatchArmParam` that determine arm structure. -/
structure MatchArmParam where
  enum_name : String
  all_unit_variants : Bool
  include_src_ty : Bool
  include_inner : Bool
  inner_ident : String
  token_type_ident : String
  src_type_ident : String
  token_path : String
deriving Repr

/-- A match-arm pattern as emitted by
`generate_match_arms_for_regular_matcher` (matcher_gen.rs lines
168-176): `Enum::V` for unit variants, `Enum::V(_)` when no payload
binding is requested, `Enum::V(inner)` when it is.  There is no
catch-all constructor, mirroring that the generator never emits a
default arm. -/
inductive Pat where
  | unitP (enumName variantIdent : String)
  | wildP (enumName variantIdent : String)
  | bindP (enumName variantIdent binder : String)
deriving DecidableEq, Repr

/-- The variant a pattern mentions. -/
def Pat.variantName : Pat → String
  | .unitP _ v => v
  | .wildP _ v => v
  | .bindP _ v _ => v

/-- Whether a pattern matches a runtime tag: each emitted pattern
matches exactly the tag of the variant it names. -/
def Pat.matchesTag (p : Pat) (tag : String) : Bool :=
  p.variantName == tag

/-- The content of one generated arm body, as assembled by
`generate_match_arm_content` (matcher_gen.rs lines 38-142):
`innerUnitBinding = some name` records the emitted
`let name = ();` unit binding; `srcTypeDecl` the optional
`type SrcTy = ...;` alias; `tokenTypeDecl` the `type TokenTy = path;`
alias naming the arm's marker type. -/
structure ArmContent where
  innerUnitBinding : Option String
  srcTypeDecl : Option (String × RTy)
  tokenTypeDecl : String × String
deriving DecidableEq, Repr

/-- One generated match arm: pattern and body content. -/
structure Arm where
  pat : Pat
  content : ArmContent
deriving DecidableEq, Repr

/-- Embeds `generate_match_arm_content` (matcher_gen.rs lines 38-142).
The `let inner = ();` binding is emitted exactly when a payload binding
was requested, the variant is unit-shaped and not all variants are
unit-shaped; the source-payload type alias resolves the unit type for
variants without payload; the token alias points at the variant's
marker type under the token path. -/
def generate_match_arm_content (v : ParsedVariantInfo) (p : MatchArmParam) : ArmContent :=
  let src_type := v.inner_type.getD RTy.unitTy
  { innerUnitBinding :=
      if p.include_inner && v.is_unit && !p.all_unit_variants then some p.inner_ident
      else none
    srcTypeDecl :=
      if p.all_unit_variants then none
      else if p.include_src_ty then some (p.src_type_ident, src_type)
      else none
    tokenTypeDecl := (p.token_type_ident, p.token_path ++ "::" ++ v.token_ident) }

/-- Embeds the pattern generation of
`generate_match_arms_for_regular_matcher` (matcher_gen.rs lines
168-176). -/
def generate_match_arm_pat (p : MatchArmParam) (v : ParsedVariantInfo) : Pat :=
  if v.is_unit then Pat.unitP p.enum_name v.variant_ident
  else if p.include_inner then Pat.bindP p.enum_name v.variant_ident p.inner_ident
  else Pat.wildP p.enum_name v.variant_ident

/-- Embeds `generate_match_arms_for_regular_matcher` (matcher_gen.rs
lines 152-185): one arm per parsed variant, in order. -/
def generate_match_arms_for_regular_matcher (p : MatchArmParam)
    (parsed_variants : List ParsedVariantInfo) : List Arm :=
  parsed_variants.map fun v =>
    ⟨generate_match_arm_pat p v, generate_match_arm_content v p⟩

/-- `all_unit_variants` as computed by `generate_macro_rule_arm`
(matcher_gen.rs line 203). -/
def all_unit_variants_of (parsed_variants : List ParsedVariantInfo) : Bool :=
  parsed_variants.all (·.is_unit)

/-- First-match semantics of the emitted `match` expression: run the
first arm whose pattern matches the value's tag and return that arm's
body content. -/
def runMatch (arms : List Arm) (v : SumVal α) : Option ArmContent :=
  (arms.find? fun a => a.pat.matchesTag v.tag).map (·.content)

/-! ### Grouped-matcher attribute parsing

Embedded from src/dtype_variant_derive/src/grouped_matcher.rs over a
small expression AST covering the cases the parser distinguishes. -/

/-- The argument expression of one group definition: a plain path
(an identifier when simple), a binary `|` of two argument expressions,
or anything else. -/
inductive GArg where
  | path (ident : Option String)
  | orExpr (l r : GArg)
  | otherExpr
deriving DecidableEq, Repr

/-- One element of the `grouping = [...]` array: a call expression
`GroupName(args)` (func ident present when the callee is a simple
path), or anything else. -/
inductive GElem where
  | call (funcIdent : Option String) (args : List GArg)
  | otherElem
deriving DecidableEq, Repr

/-- The value assigned to `grouping`: a bracketed array of elements, or
a non-array expression. -/
inductive GMetaVal where
  | array (elems : List GElem)
  | nonArray
deriving DecidableEq, Repr

/-- Embeds `extract_variants` (grouped_matcher.rs lines 69-86):
flattens a `|`-separated tree of identifiers, failing on anything
else. -/
def extract_variants : GArg → Except String (List String)
  | .orExpr l r => do
      let vl ← extract_variants l
      let vr ← extract_variants r
      pure (vl ++ vr)
  | .path (some i) => pure [i]
  | .path none => Except.error "Expected variant identifier"
  | .otherExpr =>
      Except.error "Expected variants separated by a vertical bar or a single variant identifier"

/-- Embeds the per-element body of the parse loop in
`ParsedGroups::from_meta` (grouped_matcher.rs lines 47-103): a group
must be a call of a simple identifier with exactly one argument, whose
extracted variant list must be non-empty. -/
def parseGroupElem : GElem → Except String (String × List String)
  | .call (some gname) args =>
      match args with
      | [a] => do
          let variants ← extract_variants a
          if variants.isEmpty then
            Except.error "Group variant list cannot be empty"
          else
            pure (gname, variants)
      | _ => Except.error ("Group " ++ gname ++ " expects exactly one argument")
  | .call none _ => Except.error "Expected group name identifier"
  | .otherElem =>
      Except.error "Expected group definition in the format GroupName(Variant or Variant-bar-list)"

/-- Embeds `ParsedGroups::from_meta` (grouped_matcher.rs lines 18-114):
the `grouping` value must be an array, every element must parse as a
group, and the resulting group list must be non-empty. -/
def ParsedGroups.from_meta (item : GMetaVal) : Except String (List (String × List String)) :=
  match item with
  | .nonArray => Except.error "grouping value must be a list in brackets"
  | .array elems => do
      let groups ← elems.mapM parseGroupElem
      if groups.isEmpty then
        Except.error "grouping list must define at least one group"
      else
        pure groups

/-! ### Grouping validation and grouped dispatch -/

/-- The grouping-validation failures of spec §4.2, plus the
at-least-one-group failure that `ParsedGroups::from_meta` raises at
parse time (grouped_matcher.rs lines 106-111). -/
inductive GroupingError where
  | MissingVariants (names : List String)
  | DuplicateVariant (name : String)
  | EmptyGroup (name : String)
  | UnknownVariant (name : String)
  | NoGroups
deriving DecidableEq, Repr

/-- Modelled from the spec: `GroupingValidator` (§3 invariant, §4.2;
the derive module holding the validation is absent from the sources,
only the attribute parser is under src).  Checks that the groups'
member lists partition the schema's variant-name set exactly — no
grouping without groups (enforced at parse time by
`ParsedGroups::from_meta`), no empty group, no variant name appearing
more than once across the member lists, no member absent from the
schema, no schema variant left out — and on success returns the
partition mapping each variant name to its group name, groups in
declaration order. -/
def validateGrouping (schemaVariants : List String)
    (groups : List (String × List String)) :
    Except GroupingError (List (String × String)) :=
  if groups.isEmpty then Except.error GroupingError.NoGroups
  else
    match groups.find? fun g => g.2.isEmpty with
    | some g => Except.error (GroupingError.EmptyGroup g.1)
    | none =>
      match (groups.map Prod.snd).flatten.find? fun m =>
          1 < ((groups.map Prod.snd).flatten.count m) with
      | some m => Except.error (GroupingError.DuplicateVariant m)
      | none =>
        match (groups.map Prod.snd).flatten.find? fun m => !schemaVariants.contains m with
        | some m => Except.error (GroupingError.UnknownVariant m)
        | none =>
          if (schemaVariants.filter fun s => !(groups.map Prod.snd).flatten.contains s).isEmpty then
            Except.ok ((groups.map fun g => g.2.map fun m => (m, g.1)).flatten)
          else
            Except.error (GroupingError.MissingVariants
              (schemaVariants.filter fun s => !(groups.map Prod.snd).flatten.contains s))

/-- One arm of the grouped dispatch construct: the variant it covers
and the body it runs on that variant's payload. -/
structure GroupedArm (α β : Type) where
  variantName : String
  body : Payload α → β

/-- Modelled from the spec: grouped-dispatch arm generation (§4.6, §9;
the derive module is absent from the sources).  One arm per schema
variant, in declaration order, each routed to the shared fragment of
the group the validated partition assigns that variant to. -/
def generate_grouped_match_arms (schemaVariants : List String)
    (partition : List (String × String)) (frag : String → Payload α → β) :
    List (GroupedArm α β) :=
  schemaVariants.map fun name =>
    ⟨name, fun pl => frag ((partition.lookup name).getD "") pl⟩

/-- First-match semantics of the emitted grouped `match`. -/
def runGroupedMatch (arms : List (GroupedArm α β)) (v : SumVal α) : Option β :=
  (arms.find? fun a => a.variantName == v.tag).map (fun a => a.body v.payload)

/-- The grouped dispatch pipeline: validate the grouping, then build
the per-variant arms routed to group fragments and dispatch the value.
A validation failure aborts the whole construct — nothing is emitted. -/
def groupedDispatch (schemaVariants : List String)
    (groups : List (String × List String)) (frag : String → Payload α → β)
    (v : SumVal α) : Except GroupingError (Option β) :=
  (validateGrouping schemaVariants groups).map fun partition =>
    runGroupedMatch (generate_grouped_match_arms schemaVariants partition frag) v

/-! ### Cross-type correlation (examples/simple/src/main.rs) -/

/-- Extracts the tuple payload from a payload read. -/
def tuplePayload : Payload α → Option α
  | .tuple x => some x
  | _ => none

/-- Embeds `combine_shared_actions` (examples/simple/src/main.rs lines
40-54): downcast both values by reference at the same shared marker
token, dereference to the common payload type, and add. -/
def combine_shared_actions [Add α] (tok : String) (action1 action2 : SumVal α) :
    Option α := do
  let inner1 ← downcast_ref tok action1
  let inner2 ← downcast_ref tok action2
  let x1 ← tuplePayload inner1
  let x2 ← tuplePayload inner2
  pure (x1 + x2)

/-- Concrete payload-value universe for the spec §8 scenario: i32,
f64 (rational in the model) and String values. -/
inductive CVal where
  | intV (n : Int)
  | floatV (q : Rat)
  | strV (s : String)
deriving DecidableEq, Repr

/-- The fragments of the spec §8 concrete scenario: group `Numeric`
yields the string N, group `Text` yields the string T. -/
def by_category_frag (g : String) (_pl : Payload CVal) : String :=
  if g = "Numeric" then "N" else if g = "Text" then "T" else ""

/-! ### Helper lemmas -/

/-- Appending a fixed suffix to strings is injective. -/
theorem string_append_right_cancel (s a b : String) (h : a ++ s = b ++ s) : a = b := by
  have hd : a.data ++ s.data = b.data ++ s.data := by
    have hc := congrArg String.data h
    simpa using hc
  exact String.ext (List.append_cancel_right hd)

/-- Appending distinct suffixes to the same string gives distinct
strings. -/
theorem string_append_left_cancel (s a b : String) (h : s ++ a = s ++ b) : a = b := by
  have hd : s.data ++ a.data = s.data ++ b.data := by
    have hc := congrArg String.data h
    simpa using hc
  exact String.ext (List.append_cancel_left hd)

/-- Reading a struct field after writing it through `setField` observes
the written value, provided the field exists. -/
theorem lookupField_setField (name : String) (x : α) (fs : List (String × α))
    (h : name ∈ fs.map Prod.fst) :
    lookupField name (setField name x (Payload.struct fs)) = some x := by
  induction fs with
  | nil => simp at h
  | cons f rest ih =>
    by_cases hf : f.1 = name
    · simp [setField, lookupField, hf]
    · have hmem : name ∈ rest.map Prod.fst := by
        rcases List.mem_cons.mp h with h1 | h1
        · exact absurd h1.symm hf
        · exact h1
      have ihr := ih hmem
      simp only [setField, lookupField] at ihr ⊢
      simp only [List.map_cons, if_neg hf, List.find?]
      have hbeq : (f.1 == name) = false := by
        simpa using hf
      rw [hbeq]
      simpa [setField, lookupField] using ihr

/-! ### Claim theorems -/

/-- C1: for a sum-type value whose active variant is `V`, writing
through the by-mutable-reference accessor and re-reading the value's
payload observes the write — for tuple shapes the direct payload write,
for struct shapes a write to one field of the mutable-reference record;
in both cases re-reading (by pattern or by-reference read) sees the
written value. -/
theorem mut_write_observed (V : String) (p x y : α) (fs : List (String × α))
    (fname : String) (hf : fname ∈ fs.map Prod.fst) :
    (downcast_mut_write V (fun _ => Payload.tuple x) (⟨V, Payload.tuple p⟩ : SumVal α)).2 =
      ⟨V, Payload.tuple x⟩ ∧
    downcast_ref V
      ((downcast_mut_write V (fun _ => Payload.tuple x) (⟨V, Payload.tuple p⟩ : SumVal α)).2) =
      some (Payload.tuple x) ∧
    lookupField fname
      ((downcast_mut_write V (setField fname y) (⟨V, Payload.struct fs⟩ : SumVal α)).2).payload =
      some y := by
  refine ⟨?_, ?_, ?_⟩
  · simp [downcast_mut_write]
  · simp [downcast_mut_write, downcast_ref]
  · simp only [downcast_mut_write, if_pos rfl]
    exact lookupField_setField fname y fs hf

/-- C1 witness: the scenario of `test_dyn_chunk` and
`test_struct_variant_reference_downcasting`: write 2 over a tuple
payload 1, and write age 26 into a struct payload with fields name/age
(values as integers), both observed on re-read. -/
theorem mut_write_observed_witness :
    ("age" ∈ ([("name", (0 : Int)), ("age", 25)].map Prod.fst)) ∧
    ((downcast_mut_write "F32" (fun _ => Payload.tuple (2 : Int))
        (⟨"F32", Payload.tuple 1⟩ : SumVal Int)).2 = ⟨"F32", Payload.tuple 2⟩ ∧
      downcast_ref "F32"
        ((downcast_mut_write "F32" (fun _ => Payload.tuple (2 : Int))
          (⟨"F32", Payload.tuple 1⟩ : SumVal Int)).2) = some (Payload.tuple 2) ∧
      lookupField "age"
        ((downcast_mut_write "Person" (setField "age" (26 : Int))
          (⟨"Person", Payload.struct [("name", 0), ("age", 25)]⟩ : SumVal Int)).2).payload =
        some 26) :=
  ⟨by decide,
   mut_write_observed "F32" 1 2 26 [("name", (0 : Int)), ("age", 25)] "age" (by decide)⟩

/-- C2: constructing via variant `V` and applying a distinct variant
`W`'s accessor returns an absent result in all three forms (owned,
by-reference, by-mutable-reference), no error is raised, and the
reference forms leave the value unchanged. -/
theorem distinct_variant_accessor_absent (V W : String) (hne : V ≠ W)
    (p : Payload α) (w : Payload α → Payload α) :
    downcast W (⟨V, p⟩ : SumVal α) = none ∧
    downcast_ref W (⟨V, p⟩ : SumVal α) = none ∧
    downcast_mut_write W w (⟨V, p⟩ : SumVal α) = (none, ⟨V, p⟩) := by
  refine ⟨?_, ?_, ?_⟩ <;>
    simp [downcast, downcast_ref, downcast_mut_write, hne]

/-- C2 witness: the scenario of
`test_struct_variant_reference_downcast_fail`: a Person value probed
with the Location accessors yields absent results and an unchanged
value. -/
theorem distinct_variant_accessor_absent_witness :
    ("Person" ≠ "Location") ∧
    (downcast "Location" (⟨"Person", Payload.struct [("age", (30 : Int))]⟩ : SumVal Int) = none ∧
      downcast_ref "Location"
        (⟨"Person", Payload.struct [("age", (30 : Int))]⟩ : SumVal Int) = none ∧
      downcast_mut_write "Location" id
        (⟨"Person", Payload.struct [("age", (30 : Int))]⟩ : SumVal Int) =
        (none, ⟨"Person", Payload.struct [("age", 30)]⟩)) :=
  ⟨by decide,
   distinct_variant_accessor_absent "Person" "Location" (by decide)
     (Payload.struct [("age", (30 : Int))]) id⟩

/-- C3: for every variant with a generated conversion — the bare
payload for tuple shapes, the owned record for struct shapes, none for
unit shapes — converting the payload into the sum type and applying the
variant's owned accessor returns the payload structurally unchanged. -/
theorem conversion_round_trip (tok : String) (x : α) (fs : List (String × α))
    (sup : Bool) (hsup : sup = false) (ty : RTy) (sfs : List (String × RTy)) :
    downcast tok (fromPayload tok (Payload.tuple x)) = some (Payload.tuple x) ∧
    downcast tok (fromPayload tok (Payload.struct fs)) = some (Payload.struct fs) ∧
    conversionGenerated sup (VariantShape.tuple ty) = true ∧
    conversionGenerated sup (VariantShape.struct sfs) = true ∧
    conversionGenerated sup VariantShape.unit = false := by
  subst hsup
  refine ⟨?_, ?_, rfl, rfl, rfl⟩ <;>
    simp [downcast, fromPayload]

/-- C3 witness: the scenario of `test_end_to_end` and
`test_struct_variants`: converting a tuple payload and an owned Person
record into the sum type and downcasting them back returns them
unchanged, with conversions generated for tuple and struct shapes and
none for the unit shape. -/
theorem conversion_round_trip_witness :
    downcast "U16" (fromPayload "U16" (Payload.tuple (1 : Int))) = some (Payload.tuple 1) ∧
    downcast "Person" (fromPayload "Person" (Payload.struct [("age", (25 : Int))])) =
      some (Payload.struct [("age", 25)]) ∧
    conversionGenerated false (VariantShape.tuple (RTy.named "u16")) = true ∧
    conversionGenerated false (VariantShape.struct [("age", RTy.named "u32")]) = true ∧
    conversionGenerated false VariantShape.unit = false :=
  conversion_round_trip "U16" (1 : Int) [("age", (25 : Int))] false rfl
    (RTy.named "u16") [("age", RTy.named "u32")]

/-- C9: for a struct-shaped variant the three accessors return three
distinct synthesized record types: the owned record keeps every
declared field by value, the reference record wraps each field type in
a read-only reference, the mutable-reference record wraps each in a
mutable reference; field names and their declared order are preserved
in all three, and the owned record type is never reused for the
borrowed forms. -/
theorem struct_records_synthesized (vname : String) (fields : List (String × RTy)) :
    (synthesizeStructRecords vname fields).1.fields = fields ∧
    (synthesizeStructRecords vname fields).2.1.fields =
      fields.map (fun f => (f.1, RTy.ref f.2)) ∧
    (synthesizeStructRecords vname fields).2.2.fields =
      fields.map (fun f => (f.1, RTy.mutRef f.2)) ∧
    (synthesizeStructRecords vname fields).2.1.fields.map Prod.fst = fields.map Prod.fst ∧
    (synthesizeStructRecords vname fields).2.2.fields.map Prod.fst = fields.map Prod.fst ∧
    (synthesizeStructRecords vname fields).1.name ≠ (synthesizeStructRecords vname fields).2.1.name ∧
    (synthesizeStructRecords vname fields).1.name ≠ (synthesizeStructRecords vname fields).2.2.name ∧
    (synthesizeStructRecords vname fields).2.1.name ≠ (synthesizeStructRecords vname fields).2.2.name := by
  refine ⟨rfl, rfl, rfl, ?_, ?_, ?_, ?_, ?_⟩
  · simp [synthesizeStructRecords]
  · simp [synthesizeStructRecords]
  · intro h
    have := string_append_left_cancel vname "Fields" "Ref" h
    simp at this
  · intro h
    have := string_append_left_cancel vname "Fields" "Mut" h
    simp at this
  · intro h
    have := string_append_left_cancel vname "Ref" "Mut" h
    simp at this

/-- C9 witness: the `Person { name: String, age: u32 }` scenario of
`test_reference_struct_types`: owned fields by value, reference fields
as read-only references, mutable fields as mutable references, names
and order preserved, three distinct record types. -/
theorem struct_records_synthesized_witness :
    ((synthesizeStructRecords "Person" [("name", RTy.named "String"), ("age", RTy.named "u32")]).1.fields =
        [("name", RTy.named "String"), ("age", RTy.named "u32")] ∧
      (synthesizeStructRecords "Person" [("name", RTy.named "String"), ("age", RTy.named "u32")]).2.1.fields =
        [("name", RTy.named "String"), ("age", RTy.named "u32")].map (fun f => (f.1, RTy.ref f.2)) ∧
      (synthesizeStructRecords "Person" [("name", RTy.named "String"), ("age", RTy.named "u32")]).2.2.fields =
        [("name", RTy.named "String"), ("age", RTy.named "u32")].map (fun f => (f.1, RTy.mutRef f.2)) ∧
      (synthesizeStructRecords "Person" [("name", RTy.named "String"), ("age", RTy.named "u32")]).2.1.fields.map Prod.fst =
        [("name", RTy.named "String"), ("age", RTy.named "u32")].map Prod.fst ∧
      (synthesizeStructRecords "Person" [("name", RTy.named "String"), ("age", RTy.named "u32")]).2.2.fields.map Prod.fst =
        [("name", RTy.named "String"), ("age", RTy.named "u32")].map Prod.fst ∧
      (synthesizeStructRecords "Person" [("name", RTy.named "String"), ("age", RTy.named "u32")]).1.name ≠
        (synthesizeStructRecords "Person" [("name", RTy.named "String"), ("age", RTy.named "u32")]).2.1.name ∧
      (synthesizeStructRecords "Person" [("name", RTy.named "String"), ("age", RTy.named "u32")]).1.name ≠
        (synthesizeStructRecords "Person" [("name", RTy.named "String"), ("age", RTy.named "u32")]).2.2.name ∧
      (synthesizeStructRecords "Person" [("name", RTy.named "String"), ("age", RTy.named "u32")]).2.1.name ≠
        (synthesizeStructRecords "Person" [("name", RTy.named "String"), ("age", RTy.named "u32")]).2.2.name) :=
  struct_records_synthesized "Person"
    [("name", RTy.named "String"), ("age", RTy.named "u32")]

/-- C7: two sum types declaring the same shared token-scope path and
both containing a variant named `X` receive the identical marker for
`X`, and a single generic routine bounded by the downcast traits at
that marker (`combine_shared_actions`) extracts both payloads at `X`'s
payload type and combines them, with neither type referring to the
other. -/
theorem shared_scope_correlation [Add α] (mA mB : SchemaModel) (path X : String)
    (hA : mA.token_scope = TokenScope.shared path)
    (hB : mB.token_scope = TokenScope.shared path)
    (_hXA : X ∈ mA.variants.map (·.name)) (_hXB : X ∈ mB.variants.map (·.name))
    (pa pb : α) :
    markerFor mA X = markerFor mB X ∧
    combine_shared_actions X (fromPayload X (Payload.tuple pa))
      (fromPayload X (Payload.tuple pb)) = some (pa + pb) := by
  constructor
  · simp [markerFor, markerScope, assign, hA, hB]
  · simp [combine_shared_actions, downcast_ref, fromPayload, tuplePayload]

/-- C7 witness: the scenario of examples/simple: `PlayerInput` with
variants Move/Attack and `AIBehavior` with variants Attack/Flee share
the scope path `dtype_variant_example_shared::variants`; the Attack
markers coincide, and combining an Attack of power 50 with an Attack of
power 30 yields 80. -/
theorem shared_scope_correlation_witness :
    markerFor
        ⟨"PlayerInput",
          [⟨"Move", VariantShape.tuple (RTy.named "String"), false⟩,
           ⟨"Attack", VariantShape.tuple (RTy.named "u32"), false⟩],
          TokenScope.shared "dtype_variant_example_shared::variants"⟩ "Attack" =
      markerFor
        ⟨"AIBehavior",
          [⟨"Attack", VariantShape.tuple (RTy.named "u32"), false⟩,
           ⟨"Flee", VariantShape.tuple (RTy.named "bool"), false⟩],
          TokenScope.shared "dtype_variant_example_shared::variants"⟩ "Attack" ∧
    combine_shared_actions "Attack" (fromPayload "Attack" (Payload.tuple (50 : Int)))
      (fromPayload "Attack" (Payload.tuple (30 : Int))) = some 80 :=
  shared_scope_correlation
    ⟨"PlayerInput",
      [⟨"Move", VariantShape.tuple (RTy.named "String"), false⟩,
       ⟨"Attack", VariantShape.tuple (RTy.named "u32"), false⟩],
      TokenScope.shared "dtype_variant_example_shared::variants"⟩
    ⟨"AIBehavior",
      [⟨"Attack", VariantShape.tuple (RTy.named "u32"), false⟩,
       ⟨"Flee", VariantShape.tuple (RTy.named "bool"), false⟩],
      TokenScope.shared "dtype_variant_example_shared::variants"⟩
    "dtype_variant_example_shared::variants" "Attack" rfl rfl
    (by decide) (by decide) 50 30

/-- C8: one generation run emits exactly one marker-type declaration —
the name with `Variant` appended, declared as an empty unit struct —
per unique variant name allocated in a scope, even when several
SchemaModels sharing the scope allocate the same name; and distinct
variant names always yield distinct marker-type names. -/
theorem marker_emission_unique (allocated : List String) (n m : String)
    (hn : n ∈ allocated) (hm : m ≠ n) :
    (emitMarkersForRun allocated).count (n ++ "Variant") = 1 ∧
    (n ++ "Variant") ∈ emitMarkersForRun allocated ∧
    m ++ "Variant" ≠ n ++ "Variant" := by
  have hinj : Function.Injective (fun v : String => v ++ "Variant") := by
    intro a b hab
    exact string_append_right_cancel "Variant" a b hab
  have hmemdedup : n ∈ allocated.dedup := List.mem_dedup.mpr hn
  have hmem : (n ++ "Variant") ∈ emitMarkersForRun allocated :=
    List.mem_map_of_mem (fun v : String => v ++ "Variant") hmemdedup
  have hnodup : (emitMarkersForRun allocated).Nodup :=
    (List.nodup_dedup allocated).map hinj
  refine ⟨List.count_eq_one_of_mem hnodup hmem, hmem, ?_⟩
  intro h
  exact hm (hinj h)

/-- C8 witness: a run in which two SchemaModels sharing a scope both
allocate `U16` (so `U16` is seen twice) still emits exactly one
`U16Variant` declaration, and `U32` gets a distinct marker name. -/
theorem marker_emission_unique_witness :
    (emitMarkersForRun ["U16", "U32", "U16"]).count ("U16" ++ "Variant") = 1 ∧
    ("U16" ++ "Variant") ∈ emitMarkersForRun ["U16", "U32", "U16"] ∧
    ("U32" ++ "Variant") ≠ ("U16" ++ "Variant") :=
  marker_emission_unique ["U16", "U32", "U16"] "U16" "U32" (by decide) (by decide)

/-- The pattern generated for a variant names exactly that variant. -/
theorem variantName_generate_pat (p : MatchArmParam) (v : ParsedVariantInfo) :
    (generate_match_arm_pat p v).variantName = v.variant_ident := by
  unfold generate_match_arm_pat
  split_ifs <;> rfl

/-- First-match evaluation of the generated arms: with unique variant
idents, a value tagged with a listed variant runs that variant's arm
body. -/
theorem runMatch_generated_arms (p : MatchArmParam) (vs : List ParsedVariantInfo)
    (hnd : (vs.map (·.variant_ident)).Nodup) (v : ParsedVariantInfo) (hv : v ∈ vs)
    (pl : Payload α) :
    runMatch (generate_match_arms_for_regular_matcher p vs)
      (⟨v.variant_ident, pl⟩ : SumVal α) = some (generate_match_arm_content v p) := by
  induction vs with
  | nil => simp at hv
  | cons w rest ih =>
    have hmt : (generate_match_arm_pat p w).matchesTag v.variant_ident =
        (w.variant_ident == v.variant_ident) := by
      simp [Pat.matchesTag, variantName_generate_pat]
    by_cases hw : w.variant_ident = v.variant_ident
    · have hveq : v = w := by
        rcases List.mem_cons.mp hv with h1 | h1
        · exact h1
        · exfalso
          have hmem : v.variant_ident ∈ rest.map (·.variant_ident) :=
            List.mem_map_of_mem (·.variant_ident) h1
          rw [← hw] at hmem
          exact (List.nodup_cons.mp (by simpa using hnd)).1 hmem
      subst hveq
      simp [runMatch, generate_match_arms_for_regular_matcher, List.find?, hmt, hw]
    · have hrest : v ∈ rest := by
        rcases List.mem_cons.mp hv with h1 | h1
        · exact absurd (congrArg (·.variant_ident) h1).symm hw
        · exact h1
      have hnd' : (rest.map (·.variant_ident)).Nodup :=
        (List.nodup_cons.mp (by simpa using hnd)).2
      have ihr := ih hnd' hrest
      simp only [runMatch, generate_match_arms_for_regular_matcher, List.map_cons,
        List.find?] at ihr ⊢
      have hbeq : ((generate_match_arm_pat p w).matchesTag v.variant_ident) = false := by
        rw [hmt]
        simpa using hw
      rw [hbeq]
      exact ihr

/-- C4: the plain dispatch construct contains exactly one match arm per
variant, in declaration order, each arm's pattern matching exactly the
tag of the variant it names (no catch-all arm); dispatching a value
tagged with a variant runs exactly that variant's fragment instance. -/
theorem plain_dispatch_exhaustive (p : MatchArmParam) (vs : List ParsedVariantInfo)
    (hnd : (vs.map (·.variant_ident)).Nodup) (v : ParsedVariantInfo) (hv : v ∈ vs)
    (pl : Payload α) :
    (generate_match_arms_for_regular_matcher p vs).map (·.pat.variantName) =
      vs.map (·.variant_ident) ∧
    (∀ a ∈ generate_match_arms_for_regular_matcher p vs,
      ∀ t, a.pat.matchesTag t = true ↔ t = a.pat.variantName) ∧
    runMatch (generate_match_arms_for_regular_matcher p vs)
      (⟨v.variant_ident, pl⟩ : SumVal α) = some (generate_match_arm_content v p) := by
  refine ⟨?_, ?_, runMatch_generated_arms p vs hnd v hv pl⟩
  · simp only [generate_match_arms_for_regular_matcher, List.map_map]
    apply List.map_congr_left
    intro w _
    exact variantName_generate_pat p w
  · intro a _ t
    rw [Pat.matchesTag, beq_iff_eq]
    exact eq_comm

/-- C4 witness: the three-variant enum of `test_struct_variants`
(Person, Location, Score): one arm per variant in order, no catch-all,
and a Score-tagged value runs the Score arm. -/
theorem plain_dispatch_exhaustive_witness :
    ((generate_match_arms_for_regular_matcher
        ⟨"StructVariantData", false, true, true, "inner", "Token", "T", "self"⟩
        [⟨"Person", "PersonVariant", some (RTy.named "PersonFields"), false⟩,
         ⟨"Location", "LocationVariant", some (RTy.named "LocationFields"), false⟩,
         ⟨"Score", "ScoreVariant", some (RTy.named "i32"), false⟩]).map (·.pat.variantName) =
      ["Person", "Location", "Score"] ∧
    (∀ a ∈ generate_match_arms_for_regular_matcher
        ⟨"StructVariantData", false, true, true, "inner", "Token", "T", "self"⟩
        [⟨"Person", "PersonVariant", some (RTy.named "PersonFields"), false⟩,
         ⟨"Location", "LocationVariant", some (RTy.named "LocationFields"), false⟩,
         ⟨"Score", "ScoreVariant", some (RTy.named "i32"), false⟩],
      ∀ t, a.pat.matchesTag t = true ↔ t = a.pat.variantName) ∧
    runMatch (generate_match_arms_for_regular_matcher
        ⟨"StructVariantData", false, true, true, "inner", "Token", "T", "self"⟩
        [⟨"Person", "PersonVariant", some (RTy.named "PersonFields"), false⟩,
         ⟨"Location", "LocationVariant", some (RTy.named "LocationFields"), false⟩,
         ⟨"Score", "ScoreVariant", some (RTy.named "i32"), false⟩])
      (⟨"Score", Payload.tuple (95 : Int)⟩ : SumVal Int) =
      some (generate_match_arm_content
        ⟨"Score", "ScoreVariant", some (RTy.named "i32"), false⟩
        ⟨"StructVariantData", false, true, true, "inner", "Token", "T", "self"⟩)) :=
  plain_dispatch_exhaustive
    ⟨"StructVariantData", false, true, true, "inner", "Token", "T", "self"⟩
    [⟨"Person", "PersonVariant", some (RTy.named "PersonFields"), false⟩,
     ⟨"Location", "LocationVariant", some (RTy.named "LocationFields"), false⟩,
     ⟨"Score", "ScoreVariant", some (RTy.named "i32"), false⟩]
    (by decide)
    ⟨"Score", "ScoreVariant", some (RTy.named "i32"), false⟩
    (by decide) (Payload.tuple (95 : Int))

/-- C10: in a generated dispatch arm for a unit-shaped variant, when a
payload binding was requested and not all variants are unit-shaped, the
arm's pattern carries no binding and the requested name is bound to the
unit value inside the arm body, so fragments use the binding uniformly
across shapes. -/
theorem unit_arm_binding (p : MatchArmParam) (vs : List ParsedVariantInfo)
    (v : ParsedVariantInfo) (hv : v ∈ vs) (hu : v.is_unit = true)
    (hinner : p.include_inner = true)
    (hall : p.all_unit_variants = all_unit_variants_of vs)
    (hnau : all_unit_variants_of vs = false) :
    generate_match_arm_pat p v = Pat.unitP p.enum_name v.variant_ident ∧
    (generate_match_arm_content v p).innerUnitBinding = some p.inner_ident ∧
    (⟨generate_match_arm_pat p v, generate_match_arm_content v p⟩ : Arm) ∈
      generate_match_arms_for_regular_matcher p vs := by
  refine ⟨?_, ?_, ?_⟩
  · simp [generate_match_arm_pat, hu]
  · simp [generate_match_arm_content, hinner, hu, hall, hnau]
  · exact List.mem_map_of_mem _ hv

/-- C10 witness: the enum `MyEnumVariant` of the derive-crate test
suite (unit variants U16/U32/U64 next to a mixed parameterization):
here a mixed enum with a unit variant `U16` and a tuple variant `U32`;
its unit arm binds the requested name to unit and its pattern carries
no binding. -/
theorem unit_arm_binding_witness :
    generate_match_arm_pat
        ⟨"MyEnum", all_unit_variants_of
          [⟨"U16", "U16Variant", none, true⟩,
           ⟨"U32", "U32Variant", some (RTy.named "u32"), false⟩],
          true, true, "inner", "Token", "T", "self"⟩
        ⟨"U16", "U16Variant", none, true⟩ =
      Pat.unitP "MyEnum" "U16" ∧
    (generate_match_arm_content ⟨"U16", "U16Variant", none, true⟩
        ⟨"MyEnum", all_unit_variants_of
          [⟨"U16", "U16Variant", none, true⟩,
           ⟨"U32", "U32Variant", some (RTy.named "u32"), false⟩],
          true, true, "inner", "Token", "T", "self"⟩).innerUnitBinding =
      some "inner" ∧
    (⟨generate_match_arm_pat
        ⟨"MyEnum", all_unit_variants_of
          [⟨"U16", "U16Variant", none, true⟩,
           ⟨"U32", "U32Variant", some (RTy.named "u32"), false⟩],
          true, true, "inner", "Token", "T", "self"⟩
        ⟨"U16", "U16Variant", none, true⟩,
      generate_match_arm_content ⟨"U16", "U16Variant", none, true⟩
        ⟨"MyEnum", all_unit_variants_of
          [⟨"U16", "U16Variant", none, true⟩,
           ⟨"U32", "U32Variant", some (RTy.named "u32"), false⟩],
          true, true, "inner", "Token", "T", "self"⟩⟩ : Arm) ∈
      generate_match_arms_for_regular_matcher
        ⟨"MyEnum", all_unit_variants_of
          [⟨"U16", "U16Variant", none, true⟩,
           ⟨"U32", "U32Variant", some (RTy.named "u32"), false⟩],
          true, true, "inner", "Token", "T", "self"⟩
        [⟨"U16", "U16Variant", none, true⟩,
         ⟨"U32", "U32Variant", some (RTy.named "u32"), false⟩] :=
  unit_arm_binding
    ⟨"MyEnum", all_unit_variants_of
      [⟨"U16", "U16Variant", none, true⟩,
       ⟨"U32", "U32Variant", some (RTy.named "u32"), false⟩],
      true, true, "inner", "Token", "T", "self"⟩
    [⟨"U16", "U16Variant", none, true⟩,
     ⟨"U32", "U32Variant", some (RTy.named "u32"), false⟩]
    ⟨"U16", "U16Variant", none, true⟩
    (by decide) rfl rfl rfl (by decide)

/-- First-match evaluation of the grouped arms: a value tagged with a
listed variant runs the fragment of the group the partition assigns to
that variant name. -/
theorem runGroupedMatch_generated (schemaVariants : List String)
    (partition : List (String × String)) (frag : String → Payload α → β)
    (v : SumVal α) (hmem : v.tag ∈ schemaVariants) :
    runGroupedMatch (generate_grouped_match_arms schemaVariants partition frag) v =
      some (frag ((partition.lookup v.tag).getD "") v.payload) := by
  induction schemaVariants with
  | nil => simp at hmem
  | cons n rest ih =>
    by_cases hn : n = v.tag
    · simp [runGroupedMatch, generate_grouped_match_arms, List.find?, hn]
    · have hrest : v.tag ∈ rest := by
        rcases List.mem_cons.mp hmem with h1 | h1
        · exact absurd h1.symm hn
        · exact h1
      have ihr := ih hrest
      simp only [runGroupedMatch, generate_grouped_match_arms, List.map_cons,
        List.find?] at ihr ⊢
      have hbeq : (n == v.tag) = false := by simpa using hn
      rw [hbeq]
      exact ihr

/-- A successful grouping validation implies the partition invariant:
at least one group, no empty group, no variant name repeated across the
member lists, and the members' union equal to the schema's variant-name
set. -/
theorem validateGrouping_ok_inv (schemaVariants : List String)
    (groups : List (String × List String)) (partition : List (String × String))
    (h : validateGrouping schemaVariants groups = Except.ok partition) :
    groups ≠ [] ∧ (∀ g ∈ groups, g.2 ≠ []) ∧
    (∀ n, ((groups.map Prod.snd).flatten).count n ≤ 1) ∧
    (∀ x, x ∈ (groups.map Prod.snd).flatten ↔ x ∈ schemaVariants) := by
  unfold validateGrouping at h
  split at h
  · exact absurd h (by simp)
  next hne =>
  split at h
  · exact absurd h (by simp)
  next hempty =>
  split at h
  · exact absurd h (by simp)
  next hdup =>
  split at h
  · exact absurd h (by simp)
  next hunknown =>
  split at h
  case isFalse hmissing => exact absurd h (by simp)
  case isTrue hmissing =>
  refine ⟨by simpa using hne, ?_, ?_, ?_⟩
  · intro g hg
    have := List.find?_eq_none.mp hempty g hg
    simpa using this
  · intro n
    by_cases hn : n ∈ (groups.map Prod.snd).flatten
    · have := List.find?_eq_none.mp hdup n hn
      simpa using this
    · simp [List.count_eq_zero.mpr hn]
  · intro x
    constructor
    · intro hx
      have := List.find?_eq_none.mp hunknown x hx
      simpa using this
    · intro hx
      by_contra hnx
      have hnil : (schemaVariants.filter fun s =>
          !(groups.map Prod.snd).flatten.contains s) = [] :=
        List.isEmpty_iff.mp hmissing
      have hfilter := List.filter_eq_nil_iff.mp hnil x hx
      simp at hfilter
      apply hnx
      simpa using hfilter

/-- C5: for a validated group partition, dispatching a value whose
active variant the partition assigns to group `G` yields `G`'s
fragment's result; in the concrete scenario with variants
Int(i32) / Float(f64) / Str(String) grouped as Numeric and Text,
dispatching Int 42 yields N and dispatching Str x yields T. -/
theorem grouped_dispatch_routes (schemaVariants : List String)
    (groups : List (String × List String)) (frag : String → Payload α → β)
    (v : SumVal α) (partition : List (String × String)) (G : String)
    (hok : validateGrouping schemaVariants groups = Except.ok partition)
    (hmem : v.tag ∈ schemaVariants) (hG : partition.lookup v.tag = some G) :
    groupedDispatch schemaVariants groups frag v = Except.ok (some (frag G v.payload)) ∧
    groupedDispatch ["Int", "Float", "Str"]
      [("Numeric", ["Int", "Float"]), ("Text", ["Str"])] by_category_frag
      (⟨"Int", Payload.tuple (CVal.intV 42)⟩ : SumVal CVal) = Except.ok (some "N") ∧
    groupedDispatch ["Int", "Float", "Str"]
      [("Numeric", ["Int", "Float"]), ("Text", ["Str"])] by_category_frag
      (⟨"Str", Payload.tuple (CVal.strV "x")⟩ : SumVal CVal) = Except.ok (some "T") := by
  refine ⟨?_, by rfl, by rfl⟩
  rw [groupedDispatch, hok]
  simp only [Except.map]
  rw [runGroupedMatch_generated schemaVariants partition frag v hmem, hG]
  rfl

/-- C5 witness: the `match_by_category` scenario of
`test_grouped_matchers_mydata`, dispatching Int 42 through the
validated Numeric/Text partition. -/
theorem grouped_dispatch_routes_witness :
    groupedDispatch ["Int", "Float", "Str"]
        [("Numeric", ["Int", "Float"]), ("Text", ["Str"])] by_category_frag
        (⟨"Int", Payload.tuple (CVal.intV 42)⟩ : SumVal CVal) =
      Except.ok (some (by_category_frag "Numeric" (Payload.tuple (CVal.intV 42)))) ∧
    groupedDispatch ["Int", "Float", "Str"]
        [("Numeric", ["Int", "Float"]), ("Text", ["Str"])] by_category_frag
        (⟨"Int", Payload.tuple (CVal.intV 42)⟩ : SumVal CVal) = Except.ok (some "N") ∧
    groupedDispatch ["Int", "Float", "Str"]
        [("Numeric", ["Int", "Float"]), ("Text", ["Str"])] by_category_frag
        (⟨"Str", Payload.tuple (CVal.strV "x")⟩ : SumVal CVal) = Except.ok (some "T") :=
  grouped_dispatch_routes ["Int", "Float", "Str"]
    [("Numeric", ["Int", "Float"]), ("Text", ["Str"])] by_category_frag
    (⟨"Int", Payload.tuple (CVal.intV 42)⟩ : SumVal CVal)
    [("Int", "Numeric"), ("Float", "Numeric"), ("Str", "Text")] "Numeric"
    (by rfl) (by decide) (by rfl)

/-- C6: a GroupingSpec violating the partition invariant — no groups at
all, an empty group, a variant name appearing more than once across the
member lists, or a members' union differing from the schema's
variant-name set — is rejected by validation, so the grouped dispatch
pipeline fails and no partially-grouped construct is emitted; the
parse stage (`ParsedGroups::from_meta`) already rejects a grouping
array with no groups. -/
theorem grouping_violation_rejected (schemaVariants : List String)
    (groups : List (String × List String)) (frag : String → Payload α → β)
    (v : SumVal α)
    (hviol : groups = [] ∨ (∃ g ∈ groups, g.2 = []) ∨
      (∃ n, 1 < ((groups.map Prod.snd).flatten).count n) ∨
      ¬(∀ x, x ∈ (groups.map Prod.snd).flatten ↔ x ∈ schemaVariants)) :
    (∃ e, validateGrouping schemaVariants groups = Except.error e) ∧
    (∃ e, groupedDispatch schemaVariants groups frag v = Except.error e) ∧
    ParsedGroups.from_meta (GMetaVal.array []) =
      Except.error "grouping list must define at least one group" := by
  have herr : ∃ e, validateGrouping schemaVariants groups = Except.error e := by
    cases hval : validateGrouping schemaVariants groups with
    | error e => exact ⟨e, rfl⟩
    | ok partition =>
      exfalso
      obtain ⟨hne, hnoempty, hcount, hunion⟩ :=
        validateGrouping_ok_inv schemaVariants groups partition hval
      rcases hviol with h | ⟨g, hg, hge⟩ | ⟨n, hn⟩ | h
      · exact hne h
      · exact hnoempty g hg hge
      · exact absurd hn (by simpa using hcount n)
      · exact h hunion
  obtain ⟨e, he⟩ := herr
  refine ⟨⟨e, he⟩, ⟨e, ?_⟩, rfl⟩
  rw [groupedDispatch, he]
  rfl

/-- C6 witness: the variant `Int` listed in two groups (overlap) is
rejected, so the grouped construct for that spec is never emitted. -/
theorem grouping_violation_rejected_witness :
    (∃ e, validateGrouping ["Int", "Float"]
        [("A", ["Int", "Float"]), ("B", ["Int"])] = Except.error e) ∧
    (∃ e, groupedDispatch ["Int", "Float"]
        [("A", ["Int", "Float"]), ("B", ["Int"])] by_category_frag
        (⟨"Int", Payload.tuple (CVal.intV 1)⟩ : SumVal CVal) = Except.error e) ∧
    ParsedGroups.from_meta (GMetaVal.array []) =
      Except.error "grouping list must define at least one group" :=
  grouping_violation_rejected ["Int", "Float"]
    [("A", ["Int", "Float"]), ("B", ["Int"])] by_category_frag
    (⟨"Int", Payload.tuple (CVal.intV 1)⟩ : SumVal CVal)
    (Or.inr (Or.inr (Or.inl ⟨"Int", by decide⟩)))

end DtypeVariant
